import Mathlib

/-!
Verification of the langchain-chatbot-tutorial scripts (`src/main.py`,
`src/react_interrupt_sample.py`) against their specification.

The scripts wire a chat model to a LangGraph state graph.  We embed, as
executable Lean definitions:

* the conversation-state data model (`State` in `main.py`) together with the
  `add_messages` reducer that merges partial state updates;
* the `human_assistance` interrupt tool of `main.py` (its behaviour after the
  resume payload has been supplied);
* the `should_continue` routing function of `react_interrupt_sample.py`;
* the `chatbot` model node of `main.py` with its tool-call assertion;
* one turn of the interactive read-eval loop of `main.py` (lines 160-172),
  with the availability of `input()` and of the graph stream as oracles.

Python string helpers used by the scripts (`str.lower`, `str.startswith`,
`dict.get`) are embedded as executable functions over the character list so
that concrete instances evaluate in the kernel.
-/

/-- Python `str.lower()` : lower-case every character. -/
def py_lower (s : String) : String := ⟨s.data.map Char.toLower⟩

/-- Python `s.startswith(p)` : `p` is a prefix of `s`. -/
def py_startswith (s p : String) : Bool := p.data.isPrefixOf s.data

/-- Python dictionaries with string keys and string values, as association
lists (in insertion order, first binding of a key wins). -/
abbrev PyDict : Type := List (String × String)

/-- Python `d[k]` lookup returning `none` when the key is absent. -/
def pyGet (d : PyDict) (k : String) : Option String :=
  ((d : List (String × String)).find? (fun p => p.1 == k)).map (fun p => p.2)

/-- Python `d.get(k, default)`. -/
def dictGet (d : PyDict) (k default : String) : String :=
  (pyGet d k).getD default

/-- A single-quote character, used by Python `repr` of dictionaries. -/
def squote : String := String.singleton (Char.ofNat 39)

/-- Python `f"{d}"` for a string-to-string dictionary `d`:
`\x7b` then comma-separated `key: value` pairs, both quoted, then `\x7d`. -/
def pyDictRepr (d : PyDict) : String :=
  "\x7b" ++
    String.intercalate ", "
      ((d : List (String × String)).map
        (fun p => squote ++ p.1 ++ squote ++ ": " ++ squote ++ p.2 ++ squote)) ++
  "\x7d"

/-- A tool-call request emitted by the model
(`ToolCallRequest` of the spec, `message.tool_calls` entries in the code). -/
structure ToolCallRequest where
  name : String
  args : PyDict
  id : String
deriving Repr, DecidableEq

/-- A chat message.  `tool_calls` are the tool-call requests carried by an
assistant message; `tool_call_id` links a tool-response message to the request
it answers; `id` is the message id used by the `add_messages` reducer
(`none` for a freshly constructed message that has not been assigned one). -/
structure Message where
  role : String
  content : String
  tool_calls : List ToolCallRequest
  tool_call_id : Option String
  id : Option String
deriving Repr, DecidableEq

/-- The `State` TypedDict of `main.py` (lines 24-30): a messages list plus
`name` and `birthday` fields. -/
structure State where
  messages : List Message
  name : String
  birthday : String
deriving Repr, DecidableEq

/-- A partial state update returned by a node: some messages to merge via the
`add_messages` reducer, and optional writes to `name` / `birthday`
(absent fields are left unchanged; present fields are last-write-wins). -/
structure StateUpdate where
  messages : List Message
  name : Option String
  birthday : Option String
deriving Repr, DecidableEq

/-- Modelled from the spec: the `add_messages` reducer
(`langgraph.graph.message.add_messages`, imported by `main.py` line 7, not
part of this repository).  Behaviour as documented by the repository sources:
`main.py` lines 25-28 say it appends messages to the list rather than
overwriting it, and `react_interrupt_sample.py` lines 119-125 say the reducer
uses the ID of an incoming message to update the existing message with that
ID in place, and appends it as a new message otherwise.  One incoming
message is merged by `add_one_message`; a message without an id is assigned
a fresh one, so it never matches an existing id and is appended. -/
def add_one_message (acc : List Message) (m : Message) : List Message :=
  match m.id with
  | none => acc ++ [m]
  | some i =>
    if acc.any (fun x => x.id == some i) then
      acc.map (fun x => if x.id == some i then m else x)
    else
      acc ++ [m]

/-- Modelled from the spec: `add_messages left right` merges every message of
the update `right` into the existing list `left`, one at a time, via
`add_one_message`. -/
def add_messages (left right : List Message) : List Message :=
  right.foldl add_one_message left

/-- Merge one partial state update into the running state: `messages` through
the `add_messages` reducer, `name` and `birthday` by last-write-wins. -/
def applyUpdate (s : State) (u : StateUpdate) : State :=
  { messages := add_messages s.messages u.messages,
    name := u.name.getD s.name,
    birthday := u.birthday.getD s.birthday }

/-- Merge a sequence of partial state updates, in order. -/
def runUpdates (s : State) (us : List StateUpdate) : State :=
  us.foldl applyUpdate s

/-- The `ToolMessage(response, tool_call_id=tool_call_id)` constructor used by
`human_assistance` (`main.py` line 78): a tool-role message answering the
given tool-call id, with no id of its own yet. -/
def toolMessage (content tool_call_id : String) : Message :=
  { role := "tool", content := content, tool_calls := [],
    tool_call_id := some tool_call_id, id := none }

/-- The `human_assistance` tool of `main.py` (lines 51-81), after the
interrupt has been resumed: given the original `name` and `birthday`
arguments, the injected `tool_call_id`, and the resume payload
`human_response`, it computes the verified fields and the response text
(lines 62-71) and returns the `Command` state update of lines 75-81. -/
def human_assistance (name birthday tool_call_id : String)
    (human_response : PyDict) : StateUpdate :=
  let v :=
    if py_startswith (py_lower (dictGet human_response "correct" "")) "y" then
      (name, birthday, "Correct")
    else
      (dictGet human_response "name" name,
       dictGet human_response "birthday" birthday,
       "Made a correction: " ++ pyDictRepr human_response)
  { name := some v.1,
    birthday := some v.2.1,
    messages := [toolMessage v.2.2 tool_call_id] }

/-- The `should_continue` routing function of `react_interrupt_sample.py`
(lines 38-46), taking the state's messages list.  Python `messages[-1]` on an
empty list raises; that failure is modelled as `none`.  Otherwise: no
tool-call requests on the last message routes to `"end"`, any routes to
`"continue"`. -/
def should_continue (messages : List Message) : Option String :=
  match messages.getLast? with
  | none => none
  | some last_message =>
    if last_message.tool_calls.isEmpty then some "end" else some "continue"

/-- The `chatbot` model node of `main.py` (lines 36-44), as a function of the
message returned by `llm_with_tools.invoke`: the `assert` of line 41 is the
error branch, and otherwise the node returns the partial update appending
that message. -/
def chatbot (message : Message) : Except String StateUpdate :=
  if message.tool_calls.length ≤ 1 then
    Except.ok { messages := [message], name := none, birthday := none }
  else
    Except.error "AssertionError"

/-- Outcome of `input("User: ")` in one loop iteration: a line, or a raised
exception (input stream unavailable). -/
inductive InputResult where
  | line (s : String)
  | failed
deriving Repr, DecidableEq

/-- The fixed fallback question of the `except` branch (`main.py` line 169). -/
def fallback_question : String := "What do you know about LangGraph?"

/-- The quit sentinels of `main.py` line 163. -/
def quit_words : List String := ["quit", "exit", "q"]

/-- Observable outcome of one iteration of the `while True` loop of `main.py`
(lines 160-172): whether `"Goodbye!"` was printed, the inputs passed to
`stream_graph_updates` (in order of invocation), whether the loop terminates
after this iteration, and whether an exception escapes the loop (only
possible when the `except` branch's own stream call raises). -/
structure TurnOutcome where
  printed_goodbye : Bool
  streamed : List String
  loop_ends : Bool
  uncaught : Bool
deriving Repr, DecidableEq

/-- One iteration of the interactive loop of `main.py` (lines 160-172).
`inp` is the outcome of `input()`; `stream_raises x` tells whether
`stream_graph_updates x` raises.  The bare `except:` catches any exception
raised in the `try` block — from `input()` as well as from the stream call —
prints the fallback question, streams it once, and breaks. -/
def main_loop_turn (inp : InputResult) (stream_raises : String → Bool) :
    TurnOutcome :=
  match inp with
  | InputResult.failed =>
    { printed_goodbye := false, streamed := [fallback_question],
      loop_ends := true, uncaught := stream_raises fallback_question }
  | InputResult.line user_input =>
    if quit_words.contains (py_lower user_input) then
      { printed_goodbye := true, streamed := [], loop_ends := true,
        uncaught := false }
    else if stream_raises user_input then
      { printed_goodbye := false, streamed := [user_input, fallback_question],
        loop_ends := true, uncaught := stream_raises fallback_question }
    else
      { printed_goodbye := false, streamed := [user_input],
        loop_ends := false, uncaught := false }

/-! Concrete messages, updates and states used to instantiate the theorems,
mirroring the demo conversation of `main.py` (the `human_assistance` review of
the name `LangGraph` and birthday `Jan 17, 2024`). -/

/-- An assistant message with the given content and message id. -/
def assistant_msg (content id : String) : Message :=
  { role := "assistant", content := content, tool_calls := [],
    tool_call_id := none, id := some id }

/-- A partial state update carrying only messages. -/
def msgs_update (ms : List Message) : StateUpdate :=
  { messages := ms, name := none, birthday := none }

/-- The empty conversation state. -/
def empty_state : State := { messages := [], name := "", birthday := "" }

/-- A state holding the demo name and birthday of `main.py`. -/
def demo_state : State :=
  { messages := [], name := "LangGraph", birthday := "Jan 17, 2024" }

/-- The demo `human_assistance` tool-call request of `main.py`. -/
def tc_req : ToolCallRequest :=
  { name := "human_assistance",
    args := [("name", "LangGraph"), ("birthday", "Jan 17, 2024")], id := "call_1" }

/-- An assistant message carrying no tool-call request. -/
def plain_msg : Message :=
  { role := "assistant", content := "done", tool_calls := [], tool_call_id := none,
    id := some "2" }

/-- An assistant message carrying exactly one tool-call request. -/
def calling_msg : Message :=
  { role := "assistant", content := "", tool_calls := [tc_req], tool_call_id := none,
    id := some "3" }

/-! Helper lemmas about the `add_messages` reducer. -/

/-- Merging one message whose id matches no existing message appends it. -/
lemma add_one_message_of_fresh (l : List Message) (m : Message)
    (h : ∀ i, m.id = some i → ∀ x ∈ l, x.id ≠ some i) :
    add_one_message l m = l ++ [m] := by
  cases hm : m.id with
  | none => simp [add_one_message, hm]
  | some i =>
    have ha : l.any (fun x => x.id == some i) = false := by
      rw [List.any_eq_false]
      intro x hx
      simpa using h i hm x hx
    simp [add_one_message, hm, ha]

/-- When all message ids of `l ++ r` are pairwise distinct, the reducer
appends the whole update: `add_messages l r = l ++ r`. -/
lemma add_messages_of_fresh (l r : List Message)
    (h : ((l ++ r).filterMap Message.id).Nodup) :
    add_messages l r = l ++ r := by
  induction r generalizing l with
  | nil => simp [add_messages]
  | cons m r ih =>
    have hstep : add_one_message l m = l ++ [m] := by
      apply add_one_message_of_fresh
      intro i hi x hx hxi
      rw [List.filterMap_append, List.filterMap_cons, hi] at h
      have hcons := List.nodup_middle.mp h
      have hni : i ∉ l.filterMap Message.id ++ r.filterMap Message.id :=
        (List.nodup_cons.mp hcons).1
      exact hni (List.mem_append_left _ (List.mem_filterMap.mpr ⟨x, hx, hxi⟩))
    have h2 : (((l ++ [m]) ++ r).filterMap Message.id).Nodup := by
      rw [← List.append_cons]; exact h
    calc add_messages l (m :: r) = add_messages (l ++ [m]) r := by
          simp [add_messages, List.foldl_cons, hstep]
      _ = (l ++ [m]) ++ r := ih (l ++ [m]) h2
      _ = l ++ m :: r := by simp

/-- When all message ids occurring in the state and in a sequence of updates
are pairwise distinct, merging the updates concatenates their messages. -/
lemma runUpdates_messages_of_fresh (s : State) (us : List StateUpdate)
    (h : ((s.messages ++ us.flatMap StateUpdate.messages).filterMap Message.id).Nodup) :
    (runUpdates s us).messages = s.messages ++ us.flatMap StateUpdate.messages := by
  induction us generalizing s with
  | nil => simp [runUpdates]
  | cons u us ih =>
    rw [List.flatMap_cons] at h
    have hpre : (((s.messages ++ u.messages) ++ us.flatMap StateUpdate.messages).filterMap
        Message.id).Nodup := by
      rw [List.append_assoc]; exact h
    have h1 : ((s.messages ++ u.messages).filterMap Message.id).Nodup :=
      List.Nodup.sublist (List.Sublist.filterMap _ (List.sublist_append_left _ _)) hpre
    have e : (applyUpdate s u).messages = s.messages ++ u.messages := by
      simpa [applyUpdate] using add_messages_of_fresh _ _ h1
    have hstep : runUpdates s (u :: us) = runUpdates (applyUpdate s u) us := by
      simp [runUpdates, List.foldl_cons]
    have h2 : (((applyUpdate s u).messages ++ us.flatMap StateUpdate.messages).filterMap
        Message.id).Nodup := by
      rw [e]; exact hpre
    rw [hstep, ih (applyUpdate s u) h2, e, List.flatMap_cons, List.append_assoc]

/-! Claim theorems. -/

/-- Claim C1, counterexample: the messages field is NOT unconditionally
append-only.  Starting from the empty state, merging an update carrying a
message with id `"1"` and then an update carrying a different message with the
same id `"1"` yields a messages list of length 1, not 2 (the sum of the
contributions), and the first message has been replaced and lost: exactly the
replace-by-id reducer behaviour that `react_interrupt_sample.py` (lines
119-125) documents and exercises via `app.update_state`. -/
theorem runUpdates_same_id_replaces :
    (runUpdates empty_state
        [msgs_update [assistant_msg "a" "1"],
         msgs_update [assistant_msg "b" "1"]]).messages.length
      ≠ empty_state.messages.length +
        ([msgs_update [assistant_msg "a" "1"], msgs_update [assistant_msg "b" "1"]].map
          (fun u => u.messages.length)).sum ∧
    assistant_msg "a" "1" ∈ (runUpdates empty_state
        [msgs_update [assistant_msg "a" "1"]]).messages ∧
    assistant_msg "a" "1" ∉ (runUpdates empty_state
        [msgs_update [assistant_msg "a" "1"],
         msgs_update [assistant_msg "b" "1"]]).messages := by
  decide

/-- Claim C1 (amended): for every sequence of partial-state updates whose
messages all carry ids that are pairwise distinct and absent from the current
state (fresh ids — in particular, freshly generated message ids), the
messages field is append-only: after merging all updates it equals the old
list followed by each update's messages in order (nothing lost, reordered or
replaced), and its length equals the initial length plus the sum of the
messages contributed by each update.  Without the freshness condition an
update whose message id matches an existing message replaces that message in
place instead of being appended. -/
theorem runUpdates_append_only_of_fresh_ids (s : State) (us : List StateUpdate)
    (h : ((s.messages ++ us.flatMap StateUpdate.messages).filterMap Message.id).Nodup) :
    (runUpdates s us).messages = s.messages ++ us.flatMap StateUpdate.messages ∧
    (runUpdates s us).messages.length
      = s.messages.length + (us.map (fun u => u.messages.length)).sum := by
  have e := runUpdates_messages_of_fresh s us h
  refine ⟨e, ?_⟩
  rw [e, List.length_append, List.length_flatMap]
  rfl

/-- Claim C1, witness: two single-message updates with distinct fresh ids are
both appended, and the final length is the sum of the contributions. -/
theorem runUpdates_append_only_of_fresh_ids_witness :
    (runUpdates empty_state
        [msgs_update [assistant_msg "a" "1"], msgs_update [assistant_msg "b" "2"]]).messages
      = empty_state.messages ++
        [msgs_update [assistant_msg "a" "1"], msgs_update [assistant_msg "b" "2"]].flatMap
          StateUpdate.messages ∧
    (runUpdates empty_state
        [msgs_update [assistant_msg "a" "1"],
         msgs_update [assistant_msg "b" "2"]]).messages.length
      = empty_state.messages.length +
        ([msgs_update [assistant_msg "a" "1"], msgs_update [assistant_msg "b" "2"]].map
          (fun u => u.messages.length)).sum :=
  runUpdates_append_only_of_fresh_ids empty_state
    [msgs_update [assistant_msg "a" "1"], msgs_update [assistant_msg "b" "2"]] (by decide)

/-- Claim C2: resuming a suspended `human_assistance` interrupt whose original
arguments were the state's `name` and `birthday` with a payload mapping
`"correct"` to `"yes"` leaves the state's `name` and `birthday` fields equal
to the original arguments, and changes nothing else beyond appending the
single `"Correct"` tool-response message to the messages field. -/
theorem resume_confirm_preserves_fields (s : State) (tool_call_id : String)
    (payload : PyDict) (h : pyGet payload "correct" = some "yes") :
    applyUpdate s (human_assistance s.name s.birthday tool_call_id payload)
      = { messages := s.messages ++ [toolMessage "Correct" tool_call_id],
          name := s.name, birthday := s.birthday } := by
  have hc : dictGet payload "correct" "" = "yes" := by simp [dictGet, h]
  have hy : py_startswith (py_lower (dictGet payload "correct" "")) "y" = true := by
    rw [hc]; decide
  simp [human_assistance, hy, applyUpdate, add_messages, add_one_message, toolMessage]

/-- Claim C2, witness: confirming the demo state's `LangGraph` name and
`Jan 17, 2024` birthday with `correct: yes` keeps both fields. -/
theorem resume_confirm_preserves_fields_witness :
    applyUpdate demo_state
        (human_assistance demo_state.name demo_state.birthday "call_1" [("correct", "yes")])
      = { messages := demo_state.messages ++ [toolMessage "Correct" "call_1"],
          name := demo_state.name, birthday := demo_state.birthday } :=
  resume_confirm_preserves_fields demo_state "call_1" [("correct", "yes")] (by decide)

/-- Claim C3: resuming a suspended `human_assistance` interrupt with a payload
supplying corrected `name` and `birthday` values, with no affirmative
`"correct"` key, overwrites the update's `name` and `birthday` fields with
the supplied values and produces the tool-response message whose content is
`"Made a correction: "` followed by the Python repr of the payload. -/
theorem resume_correction_overwrites (name birthday tool_call_id n b : String)
    (payload : PyDict)
    (hn : pyGet payload "name" = some n)
    (hb : pyGet payload "birthday" = some b)
    (hc : py_startswith (py_lower (dictGet payload "correct" "")) "y" = false) :
    human_assistance name birthday tool_call_id payload
      = { name := some n, birthday := some b,
          messages := [toolMessage ("Made a correction: " ++ pyDictRepr payload)
            tool_call_id] } := by
  simp only [dictGet] at hc
  simp [human_assistance, hc, dictGet, hn, hb]

/-- Claim C3, witness: the resume command of `main.py` lines 149-154
(`name: LangGraph`, `birthday: Jan 17, 2024`) overwrites both fields and
documents the correction in the tool response. -/
theorem resume_correction_overwrites_witness :
    human_assistance "LangGraph library" "unknown" "call_1"
        [("name", "LangGraph"), ("birthday", "Jan 17, 2024")]
      = { name := some "LangGraph", birthday := some "Jan 17, 2024",
          messages := [toolMessage
            ("Made a correction: " ++
              pyDictRepr [("name", "LangGraph"), ("birthday", "Jan 17, 2024")]) "call_1"] } :=
  resume_correction_overwrites "LangGraph library" "unknown" "call_1" "LangGraph"
    "Jan 17, 2024" [("name", "LangGraph"), ("birthday", "Jan 17, 2024")]
    (by decide) (by decide) (by decide)

/-- Claim C4: the `should_continue` routing function returns the terminal
label `"end"` on a state whose last message carries no tool-call requests,
and the continue label `"continue"` on one whose last message carries exactly
one tool-call request. -/
theorem should_continue_routes (messages : List Message) (last_message : Message)
    (h : messages.getLast? = some last_message) :
    (last_message.tool_calls = [] → should_continue messages = some "end") ∧
    (last_message.tool_calls.length = 1 → should_continue messages = some "continue") := by
  constructor
  · intro hc
    simp [should_continue, h, hc]
  · intro hc
    have hne : last_message.tool_calls.isEmpty = false := by
      cases e : last_message.tool_calls with
      | nil => rw [e] at hc; simp at hc
      | cons a l => simp
    simp [should_continue, h, hne]

/-- Claim C4, witness: a plain assistant message routes to `"end"`, one with
a single tool-call request routes to `"continue"`. -/
theorem should_continue_routes_witness :
    should_continue [plain_msg] = some "end" ∧
    should_continue [calling_msg] = some "continue" :=
  ⟨(should_continue_routes [plain_msg] plain_msg (by decide)).1 (by decide),
   (should_continue_routes [calling_msg] calling_msg (by decide)).2 (by decide)⟩

/-- Claim C5: under the stated policy that at most one tool call per turn is
returned by the model when the human-interrupt tool is bound, the `chatbot`
node's assertion never fails: for every model message carrying at most one
tool-call request, the node succeeds and returns the update appending that
message (the `AssertionError` branch is unreachable). -/
theorem chatbot_assertion_ok (message : Message)
    (h : message.tool_calls.length ≤ 1) :
    chatbot message = Except.ok { messages := [message], name := none, birthday := none } := by
  simp [chatbot, h]

/-- Claim C5, witness: a message with exactly one tool-call request passes
the assertion. -/
theorem chatbot_assertion_ok_witness :
    chatbot calling_msg
      = Except.ok { messages := [calling_msg], name := none, birthday := none } :=
  chatbot_assertion_ok calling_msg (by decide)

/-- Claim C6: an input line equal to `quit`, `exit` or `q` in any letter case
makes the interactive loop print the farewell message and terminate with no
stream (hence no model) invocation; any other input line is forwarded to the
graph as the first streamed input of the turn, with no farewell. -/
theorem quit_ends_loop (user_input : String) (stream_raises : String → Bool) :
    (quit_words.contains (py_lower user_input) = true →
      main_loop_turn (InputResult.line user_input) stream_raises
        = { printed_goodbye := true, streamed := [], loop_ends := true,
            uncaught := false }) ∧
    (quit_words.contains (py_lower user_input) = false →
      (main_loop_turn (InputResult.line user_input) stream_raises).streamed.head?
          = some user_input ∧
      (main_loop_turn (InputResult.line user_input) stream_raises).printed_goodbye
          = false) := by
  constructor
  · intro h
    have hm : py_lower user_input ∈ quit_words := by simpa using h
    simp [main_loop_turn, hm]
  · intro h
    have hm : py_lower user_input ∉ quit_words := by simpa using h
    by_cases hr : stream_raises user_input = true <;> simp [main_loop_turn, hm, hr]

/-- Claim C6, witness: the upper-case line `EXIT` ends the loop with the
farewell and no stream call; the line `hello` is forwarded to the graph. -/
theorem quit_ends_loop_witness :
    main_loop_turn (InputResult.line "EXIT") (fun _ => false)
      = { printed_goodbye := true, streamed := [], loop_ends := true,
          uncaught := false } ∧
    (main_loop_turn (InputResult.line "hello") (fun _ => false)).streamed.head?
        = some "hello" :=
  ⟨(quit_ends_loop "EXIT" (fun _ => false)).1 (by decide),
   ((quit_ends_loop "hello" (fun _ => false)).2 (by decide)).1⟩

/-- Claim C7: `human_assistance` never fails on a resume payload missing
expected keys; each missing key falls back to the corresponding value of the
original request: a payload without a `"name"` key keeps the original `name`,
one without a `"birthday"` key keeps the original `birthday`, and a payload
missing all expected keys keeps both fields and still produces its single
tool-response message. -/
theorem missing_keys_fall_back (name birthday tool_call_id : String) (payload : PyDict) :
    (pyGet payload "name" = none →
      (human_assistance name birthday tool_call_id payload).name = some name) ∧
    (pyGet payload "birthday" = none →
      (human_assistance name birthday tool_call_id payload).birthday = some birthday) ∧
    (pyGet payload "correct" = none → pyGet payload "name" = none →
      pyGet payload "birthday" = none →
      human_assistance name birthday tool_call_id payload
        = { name := some name, birthday := some birthday,
            messages := [toolMessage ("Made a correction: " ++ pyDictRepr payload)
              tool_call_id] }) := by
  refine ⟨?_, ?_, ?_⟩
  · intro h
    by_cases hy : py_startswith (py_lower (dictGet payload "correct" "")) "y" = true <;>
      simp only [dictGet] at hy <;>
      simp [human_assistance, hy, dictGet, h]
  · intro h
    by_cases hy : py_startswith (py_lower (dictGet payload "correct" "")) "y" = true <;>
      simp only [dictGet] at hy <;>
      simp [human_assistance, hy, dictGet, h]
  · intro hc hn hb
    have he : dictGet payload "correct" "" = "" := by simp [dictGet, hc]
    have hy : py_startswith (py_lower (dictGet payload "correct" "")) "y" = false := by
      rw [he]; decide
    simp only [dictGet] at hy
    simp [human_assistance, hy, dictGet, hn, hb]

/-- Claim C7, witness: the empty resume payload keeps the original name and
birthday and still produces the single correction tool response. -/
theorem missing_keys_fall_back_witness :
    (human_assistance "LangGraph" "Jan 17, 2024" "call_1" []).name = some "LangGraph" ∧
    (human_assistance "LangGraph" "Jan 17, 2024" "call_1" []).birthday
        = some "Jan 17, 2024" ∧
    human_assistance "LangGraph" "Jan 17, 2024" "call_1" []
      = { name := some "LangGraph", birthday := some "Jan 17, 2024",
          messages := [toolMessage ("Made a correction: " ++ pyDictRepr []) "call_1"] } :=
  ⟨(missing_keys_fall_back "LangGraph" "Jan 17, 2024" "call_1" []).1 rfl,
   ((missing_keys_fall_back "LangGraph" "Jan 17, 2024" "call_1" []).2.1 rfl),
   ((missing_keys_fall_back "LangGraph" "Jan 17, 2024" "call_1" []).2.2 rfl rfl rfl)⟩

/-- Claim C8: on every execution path (confirmation or correction), the
`human_assistance` tool produces exactly one tool-response message, and its
`tool_call_id` equals the injected call id of the request it answers. -/
theorem tool_response_matches_call_id (name birthday tool_call_id : String)
    (payload : PyDict) :
    (human_assistance name birthday tool_call_id payload).messages.map
        (fun m => (m.role, m.tool_call_id))
      = [("tool", some tool_call_id)] := by
  by_cases hy : py_startswith (py_lower (dictGet payload "correct" "")) "y" = true <;>
    simp only [dictGet] at hy <;>
    simp [human_assistance, hy, dictGet, toolMessage]

/-- Claim C9: any resume payload whose `"correct"` value is a string whose
lower-casing begins with `"y"` (such as `yep` or `YES`) is treated as
confirmation: the original `name` and `birthday` are kept and the
tool-response content is `"Correct"`; confirmation is not limited to the
exact string `"yes"`. -/
theorem confirmation_any_y_value (name birthday tool_call_id c : String) (payload : PyDict)
    (hc : pyGet payload "correct" = some c)
    (hy : py_startswith (py_lower c) "y" = true) :
    human_assistance name birthday tool_call_id payload
      = { name := some name, birthday := some birthday,
          messages := [toolMessage "Correct" tool_call_id] } := by
  have he : dictGet payload "correct" "" = c := by simp [dictGet, hc]
  have hy2 : py_startswith (py_lower (dictGet payload "correct" "")) "y" = true := by
    rw [he]; exact hy
  simp [human_assistance, hy2]

/-- Claim C9, witness: both `correct: yep` and `correct: YES` are treated as
confirmation. -/
theorem confirmation_any_y_value_witness :
    human_assistance "LangGraph" "Jan 17, 2024" "call_1" [("correct", "yep")]
      = { name := some "LangGraph", birthday := some "Jan 17, 2024",
          messages := [toolMessage "Correct" "call_1"] } ∧
    human_assistance "LangGraph" "Jan 17, 2024" "call_1" [("correct", "YES")]
      = { name := some "LangGraph", birthday := some "Jan 17, 2024",
          messages := [toolMessage "Correct" "call_1"] } :=
  ⟨confirmation_any_y_value "LangGraph" "Jan 17, 2024" "call_1" "yep"
      [("correct", "yep")] (by decide) (by decide),
   confirmation_any_y_value "LangGraph" "Jan 17, 2024" "call_1" "YES"
      [("correct", "YES")] (by decide) (by decide)⟩

/-- Claim C10: the interactive loop's bare `except:` catches every exception
raised in the turn.  When `input()` raises, the single fixed fallback
question is streamed once and the loop terminates; when the graph-streaming
call for a non-quit line raises, the same fallback question is streamed once
after that line and the loop terminates. -/
theorem except_catches_all_turn_failures (user_input : String)
    (stream_raises : String → Bool) :
    ((main_loop_turn InputResult.failed stream_raises).streamed = [fallback_question] ∧
     (main_loop_turn InputResult.failed stream_raises).loop_ends = true) ∧
    (quit_words.contains (py_lower user_input) = false →
      stream_raises user_input = true →
      (main_loop_turn (InputResult.line user_input) stream_raises).streamed
          = [user_input, fallback_question] ∧
      (main_loop_turn (InputResult.line user_input) stream_raises).loop_ends = true) := by
  constructor
  · exact ⟨rfl, rfl⟩
  · intro h1 h2
    have hm : py_lower user_input ∉ quit_words := by simpa using h1
    simp [main_loop_turn, hm, h2]

/-- Claim C10, witness: with a graph stream that always raises, an input
failure streams the fallback question once and ends the loop, and a failure
while streaming `hello` streams the fallback question once after it and ends
the loop. -/
theorem except_catches_all_turn_failures_witness :
    ((main_loop_turn InputResult.failed (fun _ => true)).streamed = [fallback_question] ∧
     (main_loop_turn InputResult.failed (fun _ => true)).loop_ends = true) ∧
    ((main_loop_turn (InputResult.line "hello") (fun _ => true)).streamed
        = ["hello", fallback_question] ∧
     (main_loop_turn (InputResult.line "hello") (fun _ => true)).loop_ends = true) :=
  ⟨(except_catches_all_turn_failures "hello" (fun _ => true)).1,
   (except_catches_all_turn_failures "hello" (fun _ => true)).2 (by decide) rfl⟩
